import Mathlib

/-!
# Verification of the bookapp CSV import / enrichment pipeline

A shallow embedding, in Lean 4, of the book-import pipeline of the
`bookapp` repository:

* `book_import_service.py` — `BookImportService.normalize_text`,
  `BookImportService.import_from_csv`, `enrich_book_from_openlibrary`;
* `src/bookapp/csv_cli.py` — `normalize_text`,
  `get_best_bet_genres_from_subjects`, `WorkWrapper.get_book_type`,
  `CSVBookRecord.update_from_openlibrary_work`;
* `models.py` / `src/bookapp/models.py` — the `Book` row and its
  `(author, title)` uniqueness constraint.

Python strings are modelled as Lean `String`s (ASCII scope: `str.lower`
is `Char.toLower`, the regex class `\w` is "alphanumeric or underscore",
`\s` and `str.strip()` use the six ASCII whitespace characters).
Database state is passed explicitly as a list of rows; the OpenLibrary
network calls are an explicit oracle argument.  Fallible steps return
`Except`/`Option`.
-/

namespace BookApp

/-! ## Character classes (Python `\w`, `\s`, `str.lower`) -/

/-- Python regex class `\w` restricted to ASCII: alphanumeric or underscore.
Used by `re.sub(r'[^\w\s]', '', ...)` in `normalize_text`. -/
def isWordChar (c : Char) : Bool :=
  c.isAlphanum || c = '_'

/-- Python regex class `\s` / `str.strip()` whitespace, ASCII scope. -/
def isSpaceChar (c : Char) : Bool :=
  c = ' ' || c = '\t' || c = '\n' || c = '\r' || c = '\x0b' || c = '\x0c'

/-- A character survives `re.sub(r'[^\w\s]', '', ...)`. -/
def keepChar (c : Char) : Bool :=
  isWordChar c || isSpaceChar c

/-! ## `normalize_text` (book_import_service.py lines 79-90, csv_cli.py lines 110-120)

```python
if not text: return ""
normalized = text.lower()
normalized = re.sub(r'[^\w\s]', '', normalized)
normalized = re.sub(r'\s+', ' ', normalized).strip()
return normalized
```

`re.sub(r'\s+', ' ', s).strip()` replaces each maximal whitespace run by
a single space and then removes the (single) space possibly left at each
end; equivalently, it splits `s` into its maximal whitespace-free tokens
and rejoins them with single spaces.  We embed it in that split/join
form on `List Char`. -/

theorem length_dropWhile_le {α : Type} (p : α → Bool) (l : List α) :
    (l.dropWhile p).length ≤ l.length := by
  induction l with
  | nil => simp [List.dropWhile]
  | cons a t ih =>
    by_cases h : p a
    · simp only [List.dropWhile_cons_of_pos h, List.length_cons]
      omega
    · simp [List.dropWhile_cons_of_neg h]

/-- Fuel-driven splitter: with enough fuel, splits a character list into
its maximal whitespace-free tokens, dropping the whitespace runs. -/
def tokenizeF : Nat → List Char → List (List Char)
  | _, [] => []
  | 0, _ :: _ => []
  | f + 1, c :: cs =>
    if isSpaceChar c then tokenizeF f cs
    else
      (c :: cs.takeWhile (fun x => !isSpaceChar x)) ::
        tokenizeF f (cs.dropWhile (fun x => !isSpaceChar x))

/-- Maximal whitespace-free tokens of a character list, in order;
whitespace runs separate tokens and are dropped.  (`l.length` is always
enough fuel.) -/
def tokenize (l : List Char) : List (List Char) :=
  tokenizeF l.length l

theorem tokenizeF_eq :
    ∀ (f : Nat) (l : List Char), l.length ≤ f → tokenizeF f l = tokenize l
  | f, [], _ => by cases f <;> rfl
  | 0, _ :: _, hl => absurd hl (by simp)
  | f + 1, c :: cs, hl => by
    have hcs : cs.length ≤ f := by
      simp only [List.length_cons] at hl
      omega
    show (if isSpaceChar c then tokenizeF f cs
        else (c :: cs.takeWhile (fun x => !isSpaceChar x)) ::
          tokenizeF f (cs.dropWhile (fun x => !isSpaceChar x))) =
      (if isSpaceChar c then tokenizeF cs.length cs
        else (c :: cs.takeWhile (fun x => !isSpaceChar x)) ::
          tokenizeF cs.length (cs.dropWhile (fun x => !isSpaceChar x)))
    by_cases hc : isSpaceChar c
    · rw [if_pos hc, if_pos hc, tokenizeF_eq f cs hcs]
      rfl
    · rw [if_neg hc, if_neg hc,
        tokenizeF_eq f _ (le_trans (length_dropWhile_le _ _) hcs),
        tokenizeF_eq cs.length _ (length_dropWhile_le _ _)]
termination_by f _ _ => f
decreasing_by all_goals omega

/-- Induction principle following the recursion structure of `tokenize`. -/
theorem tokenize_induction (P : List Char → Prop) (h1 : P [])
    (h2 : ∀ c cs, isSpaceChar c = true → P cs → P (c :: cs))
    (h3 : ∀ c cs, isSpaceChar c = false →
      P (cs.dropWhile (fun x => !isSpaceChar x)) → P (c :: cs)) :
    ∀ l, P l := by
  have key : ∀ (n : Nat) (l : List Char), l.length ≤ n → P l := by
    intro n
    induction n with
    | zero =>
      intro l hl
      match l with
      | [] => exact h1
    | succ n ih =>
      intro l hl
      match l with
      | [] => exact h1
      | c :: cs =>
        have hcs : cs.length ≤ n := by
          simp only [List.length_cons] at hl
          omega
        cases hc : isSpaceChar c
        · exact h3 c cs hc
            (ih _ (le_trans (length_dropWhile_le _ _) hcs))
        · exact h2 c cs hc (ih cs hcs)
  exact fun l => key l.length l le_rfl

/-- Rejoin tokens with single spaces (no leading/trailing space). -/
def joinTokens : List (List Char) → List Char
  | [] => []
  | [t] => t
  | t :: ts => t ++ ' ' :: joinTokens ts

/-- The body of `normalize_text` on `List Char`: lower-case, drop every
character outside `\w` and `\s`, collapse whitespace runs to single
spaces and trim the ends. -/
def normChars (l : List Char) : List Char :=
  joinTokens (tokenize ((l.map Char.toLower).filter keepChar))

/-- `BookImportService.normalize_text` / `csv_cli.normalize_text`.
(The Python `if not text: return ""` guard is subsumed: on `""` the
pipeline below already yields `""`.) -/
def normalize_text (s : String) : String :=
  String.mk (normChars s.data)

/-! ### Basic facts about the normalizer -/

theorem toNat_ofNat_of_lt {m : Nat} (h : m < 0xd800) :
    (Char.ofNat m).toNat = m := by
  have hv : m.isValidChar := Or.inl h
  simp [Char.ofNat, hv, Char.ofNatAux, Char.toNat, UInt32.toNat]

theorem toLower_idem (c : Char) : (c.toLower).toLower = c.toLower := by
  by_cases h : c.toNat ≥ 65 ∧ c.toNat ≤ 90
  · have h1 : c.toLower = Char.ofNat (c.toNat + 32) := by
      unfold Char.toLower; rw [if_pos h]
    have h2 : (Char.ofNat (c.toNat + 32)).toNat = c.toNat + 32 :=
      toNat_ofNat_of_lt (by omega)
    rw [h1]
    unfold Char.toLower
    rw [if_neg (by rw [h2]; omega)]
  · have h1 : c.toLower = c := by
      unfold Char.toLower; rw [if_neg h]
    rw [h1, h1]

theorem space_not_word {c : Char} (h : isSpaceChar c = true) :
    isWordChar c = false := by
  unfold isSpaceChar at h
  simp only [Bool.or_eq_true, decide_eq_true_eq] at h
  rcases h with ((((h | h) | h) | h) | h) | h <;> subst h <;> decide

theorem word_not_space {c : Char} (h : isWordChar c = true) :
    isSpaceChar c = false := by
  cases hs : isSpaceChar c
  · rfl
  · rw [space_not_word hs] at h
    exact absurd h (by simp)

theorem tokenize_nil : tokenize [] = [] := rfl

theorem tokenize_cons_space {c : Char} {cs : List Char}
    (h : isSpaceChar c = true) : tokenize (c :: cs) = tokenize cs := by
  show (if isSpaceChar c then tokenizeF cs.length cs
      else (c :: cs.takeWhile (fun x => !isSpaceChar x)) ::
        tokenizeF cs.length (cs.dropWhile (fun x => !isSpaceChar x))) =
    tokenize cs
  rw [if_pos h]
  rfl

theorem tokenize_cons_nonspace {c : Char} {cs : List Char}
    (h : isSpaceChar c = false) :
    tokenize (c :: cs) =
      (c :: cs.takeWhile (fun x => !isSpaceChar x)) ::
        tokenize (cs.dropWhile (fun x => !isSpaceChar x)) := by
  show (if isSpaceChar c then tokenizeF cs.length cs
      else (c :: cs.takeWhile (fun x => !isSpaceChar x)) ::
        tokenizeF cs.length (cs.dropWhile (fun x => !isSpaceChar x))) = _
  rw [if_neg (by simp [h]),
    tokenizeF_eq cs.length _ (length_dropWhile_le _ _)]

/-- Every token produced by `tokenize` is nonempty and whitespace-free. -/
theorem tokenize_tokens_ok (l : List Char) :
    ∀ t ∈ tokenize l, t ≠ [] ∧ ∀ c ∈ t, isSpaceChar c = false := by
  induction l using tokenize_induction with
  | h1 => simp [tokenize_nil]
  | h2 c cs h ih =>
    rw [tokenize_cons_space h]
    exact ih
  | h3 c cs h' ih =>
    rw [tokenize_cons_nonspace h']
    intro t ht
    rcases List.mem_cons.mp ht with rfl | ht
    · refine ⟨by simp, ?_⟩
      intro x hx
      rcases List.mem_cons.mp hx with rfl | hx
      · exact h'
      · have := List.all_takeWhile (p := fun x => !isSpaceChar x)
          (l := cs)
        rw [List.all_eq_true] at this
        have := this x hx
        simpa using this
    · exact ih t ht

/-- Characters of a token come from the tokenized list. -/
theorem tokenize_mem (l : List Char) :
    ∀ t ∈ tokenize l, ∀ c ∈ t, c ∈ l := by
  induction l using tokenize_induction with
  | h1 => simp [tokenize_nil]
  | h2 c cs h ih =>
    rw [tokenize_cons_space h]
    intro t ht x hx
    exact List.mem_cons_of_mem _ (ih t ht x hx)
  | h3 c cs h' ih =>
    rw [tokenize_cons_nonspace h']
    intro t ht x hx
    rcases List.mem_cons.mp ht with rfl | ht
    · rcases List.mem_cons.mp hx with rfl | hx
      · exact List.mem_cons_self _ _
      · exact List.mem_cons_of_mem _
          ((List.takeWhile_sublist _).subset hx)
    · exact List.mem_cons_of_mem _
        ((List.dropWhile_sublist _).subset (ih t ht x hx))

/-- The concatenation of the tokens is the whitespace-free part of the
input. -/
theorem tokenize_join (l : List Char) :
    (tokenize l).flatten = l.filter (fun c => !isSpaceChar c) := by
  induction l using tokenize_induction with
  | h1 => simp [tokenize_nil]
  | h2 c cs h ih =>
    rw [tokenize_cons_space h, List.filter_cons_of_neg (by simp [h])]
    exact ih
  | h3 c cs h' ih =>
    rw [tokenize_cons_nonspace h', List.filter_cons_of_pos (by simp [h'])]
    simp only [List.flatten_cons, List.cons_append, List.cons.injEq, true_and]
    rw [ih]
    have htw : (cs.takeWhile (fun x => !isSpaceChar x)).filter
          (fun x => !isSpaceChar x) =
        cs.takeWhile (fun x => !isSpaceChar x) :=
      List.filter_eq_self.mpr (by
        intro a ha
        have hall := List.all_takeWhile (p := fun x => !isSpaceChar x)
          (l := cs)
        rw [List.all_eq_true] at hall
        exact hall a ha)
    conv_rhs =>
      rw [← List.takeWhile_append_dropWhile (p := fun x => !isSpaceChar x)
        (l := cs)]
    rw [List.filter_append, htw]

/-- Re-tokenizing a join of nonempty whitespace-free tokens recovers the
tokens. -/
theorem tokenize_joinTokens (ts : List (List Char))
    (h : ∀ t ∈ ts, t ≠ [] ∧ ∀ c ∈ t, isSpaceChar c = false) :
    tokenize (joinTokens ts) = ts := by
  induction ts with
  | nil => simp [joinTokens, tokenize_nil]
  | cons t ts ih =>
    obtain ⟨hne, hfree⟩ := h t (List.mem_cons_self _ _)
    obtain ⟨c, cr, rfl⟩ := List.exists_cons_of_ne_nil hne
    have hc : isSpaceChar c = false := hfree c (List.mem_cons_self _ _)
    have hcr : ∀ x ∈ cr, (fun x => !isSpaceChar x) x = true := by
      intro x hx
      simp [hfree x (List.mem_cons_of_mem _ hx)]
    cases ts with
    | nil =>
      show tokenize (c :: cr) = [c :: cr]
      rw [tokenize_cons_nonspace hc,
        List.takeWhile_eq_self_iff.mpr hcr,
        List.dropWhile_eq_nil_iff.mpr hcr, tokenize_nil]
    | cons t2 ts2 =>
      show tokenize ((c :: cr) ++ ' ' :: joinTokens (t2 :: ts2)) = _
      rw [List.cons_append, tokenize_cons_nonspace hc,
        List.takeWhile_append_of_pos hcr,
        List.dropWhile_append_of_pos hcr,
        List.takeWhile_cons_of_neg (by simp [isSpaceChar]),
        List.dropWhile_cons_of_neg (by simp [isSpaceChar]),
        List.append_nil,
        tokenize_cons_space (by simp [isSpaceChar]),
        ih (fun t ht => h t (List.mem_cons_of_mem _ ht))]

theorem joinTokens_nil : joinTokens [] = [] := rfl

theorem joinTokens_single (t : List Char) : joinTokens [t] = t := rfl

theorem joinTokens_cons2 (t t2 : List Char) (ts : List (List Char)) :
    joinTokens (t :: t2 :: ts) = t ++ ' ' :: joinTokens (t2 :: ts) := rfl

/-- Every character of a join is a separator space or a token character. -/
theorem mem_joinTokens {c : Char} :
    ∀ {ts : List (List Char)}, c ∈ joinTokens ts →
      c = ' ' ∨ ∃ t ∈ ts, c ∈ t
  | [], h => by simp [joinTokens_nil] at h
  | [t], h => by
    rw [joinTokens_single] at h
    exact Or.inr ⟨t, List.mem_cons_self _ _, h⟩
  | t :: t2 :: ts, h => by
    rw [joinTokens_cons2] at h
    rcases List.mem_append.mp h with h | h
    · exact Or.inr ⟨t, List.mem_cons_self _ _, h⟩
    · rcases List.mem_cons.mp h with rfl | h
      · exact Or.inl rfl
      · rcases mem_joinTokens h with h | ⟨u, hu, hc⟩
        · exact Or.inl h
        · exact Or.inr ⟨u, List.mem_cons_of_mem _ hu, hc⟩

theorem mem_normChars {c : Char} {l : List Char} (h : c ∈ normChars l) :
    c = ' ' ∨ c ∈ (l.map Char.toLower).filter keepChar := by
  rcases mem_joinTokens h with h | ⟨t, ht, hc⟩
  · exact Or.inl h
  · exact Or.inr (tokenize_mem _ t ht c hc)

theorem normChars_toLower_fixed {c : Char} {l : List Char}
    (h : c ∈ normChars l) : c.toLower = c := by
  rcases mem_normChars h with rfl | h
  · decide
  · have := (List.mem_filter.mp h).1
    rcases List.mem_map.mp this with ⟨a, _, rfl⟩
    exact toLower_idem a

theorem normChars_keepChar {c : Char} {l : List Char}
    (h : c ∈ normChars l) : keepChar c = true := by
  rcases mem_normChars h with rfl | h
  · decide
  · exact (List.mem_filter.mp h).2

/-- The normalizer is idempotent at the character-list level. -/
theorem normChars_idem (l : List Char) : normChars (normChars l) = normChars l := by
  have hmap : (normChars l).map Char.toLower = normChars l := by
    have := List.map_congr_left
      (l := normChars l) (f := Char.toLower) (g := id)
      (fun a ha => normChars_toLower_fixed ha)
    simpa using this
  have hfilter : (normChars l).filter keepChar = normChars l :=
    List.filter_eq_self.mpr fun a ha => normChars_keepChar ha
  show joinTokens (tokenize (((normChars l).map Char.toLower).filter keepChar))
    = normChars l
  rw [hmap, hfilter]
  show joinTokens (tokenize (joinTokens
    (tokenize ((l.map Char.toLower).filter keepChar)))) = _
  rw [tokenize_joinTokens _ (tokenize_tokens_ok _)]
  rfl

theorem not_space_and_keep (c : Char) :
    (!isSpaceChar c && keepChar c) = isWordChar c := by
  unfold keepChar
  cases hw : isWordChar c
  · cases hs : isSpaceChar c <;> simp [hs]
  · rw [word_not_space hw]
    simp

theorem joinTokens_filter_nonspace :
    ∀ ts : List (List Char), (∀ t ∈ ts, ∀ c ∈ t, isSpaceChar c = false) →
      (joinTokens ts).filter (fun c => !isSpaceChar c) = ts.flatten
  | [], _ => rfl
  | [t], h => by
    rw [joinTokens_single]
    simp only [List.flatten_cons, List.flatten_nil, List.append_nil]
    exact List.filter_eq_self.mpr fun c hc => by
      simp [h t (List.mem_cons_self _ _) c hc]
  | t :: t2 :: ts, h => by
    rw [joinTokens_cons2, List.filter_append,
      List.filter_cons_of_neg (by simp [isSpaceChar]),
      joinTokens_filter_nonspace (t2 :: ts)
        (fun u hu => h u (List.mem_cons_of_mem _ hu)),
      List.filter_eq_self.mpr (fun c hc => by
        simp [h t (List.mem_cons_self _ _) c hc])]
    simp [List.flatten_cons]

/-- Content of the normalized text: precisely the lower-cased word
characters of the input, in order. -/
theorem normChars_content (l : List Char) :
    (normChars l).filter (fun c => !isSpaceChar c) =
      (l.map Char.toLower).filter isWordChar := by
  unfold normChars
  rw [joinTokens_filter_nonspace _
      (fun t ht c hc => (tokenize_tokens_ok _ t ht).2 c hc),
    tokenize_join, List.filter_filter]
  simp only [not_space_and_keep]

/-- Nonempty join of nonempty tokens is nonempty. -/
theorem joinTokens_ne_nil :
    ∀ ts : List (List Char), ts ≠ [] → (∀ t ∈ ts, t ≠ []) →
      joinTokens ts ≠ []
  | [], h, _ => absurd rfl h
  | [t], _, h => by
    rw [joinTokens_single]
    exact h t (List.mem_cons_self _ _)
  | t :: t2 :: ts, _, h => by
    rw [joinTokens_cons2]
    have := h t (List.mem_cons_self _ _)
    intro hcontra
    exact this (List.append_eq_nil.mp hcontra).1

theorem joinTokens_head :
    ∀ ts : List (List Char), (∀ t ∈ ts, t ≠ [] ∧ ∀ c ∈ t, isSpaceChar c = false) →
      ∀ c ∈ (joinTokens ts).head?, isSpaceChar c = false
  | [], _, c, hc => by simp [joinTokens_nil] at hc
  | [t], h, c, hc => by
    rw [joinTokens_single] at hc
    exact (h t (List.mem_cons_self _ _)).2 c
      (List.mem_of_mem_head? hc)
  | t :: t2 :: ts, h, c, hc => by
    obtain ⟨hne, hfree⟩ := h t (List.mem_cons_self _ _)
    obtain ⟨a, ar, rfl⟩ := List.exists_cons_of_ne_nil hne
    rw [joinTokens_cons2] at hc
    simp only [List.cons_append, List.head?_cons, Option.mem_def,
      Option.some.injEq] at hc
    exact hc ▸ hfree a (List.mem_cons_self _ _)

theorem joinTokens_getLast :
    ∀ ts : List (List Char), (∀ t ∈ ts, t ≠ [] ∧ ∀ c ∈ t, isSpaceChar c = false) →
      ∀ c ∈ (joinTokens ts).getLast?, isSpaceChar c = false
  | [], _, c, hc => by simp [joinTokens_nil] at hc
  | [t], h, c, hc => by
    rw [joinTokens_single] at hc
    exact (h t (List.mem_cons_self _ _)).2 c
      (List.mem_of_getLast?_eq_some hc)
  | t :: t2 :: ts, h, c, hc => by
    rw [joinTokens_cons2, List.getLast?_append] at hc
    have hjoin : joinTokens (t2 :: ts) ≠ [] :=
      joinTokens_ne_nil _ (by simp)
        (fun u hu => (h u (List.mem_cons_of_mem _ hu)).1)
    have hlast : (' ' :: joinTokens (t2 :: ts)).getLast? =
        (joinTokens (t2 :: ts)).getLast? := by
      rw [List.getLast?_cons]
      obtain ⟨x, hx⟩ := Option.isSome_iff_exists.mp
        (List.getLast?_isSome.mpr hjoin)
      rw [hx]
      rfl
    rw [hlast] at hc
    obtain ⟨x, hx⟩ := Option.isSome_iff_exists.mp
      (List.getLast?_isSome.mpr hjoin)
    rw [hx] at hc
    simp only [Option.or_some, Option.mem_def, Option.some.injEq] at hc
    exact hc ▸ joinTokens_getLast (t2 :: ts)
      (fun u hu => h u (List.mem_cons_of_mem _ hu)) x
      (by rw [hx]; rfl)

/-- A whitespace-free list trivially has no two adjacent whitespace
characters. -/
theorem chain'_of_all_nonspace (t : List Char)
    (h : ∀ c ∈ t, isSpaceChar c = false) :
    t.Chain' (fun a b => isSpaceChar a = false ∨ isSpaceChar b = false) := by
  induction t with
  | nil => exact List.chain'_nil
  | cons c cr ih =>
    refine List.chain'_cons'.mpr ⟨fun y _ => Or.inl (h c (List.mem_cons_self _ _)), ?_⟩
    exact ih fun x hx => h x (List.mem_cons_of_mem _ hx)

/-- A join of whitespace-free nonempty tokens never has two adjacent
whitespace characters. -/
theorem joinTokens_chain' :
    ∀ ts : List (List Char), (∀ t ∈ ts, t ≠ [] ∧ ∀ c ∈ t, isSpaceChar c = false) →
      (joinTokens ts).Chain'
        (fun a b => isSpaceChar a = false ∨ isSpaceChar b = false)
  | [], _ => List.chain'_nil
  | [t], h => by
    rw [joinTokens_single]
    exact chain'_of_all_nonspace t (h t (List.mem_cons_self _ _)).2
  | t :: t2 :: ts, h => by
    rw [joinTokens_cons2]
    refine List.chain'_append.mpr ⟨?_, ?_, ?_⟩
    · exact chain'_of_all_nonspace t (h t (List.mem_cons_self _ _)).2
    · refine List.chain'_cons'.mpr ⟨?_, ?_⟩
      · intro y hy
        exact Or.inr (joinTokens_head (t2 :: ts)
          (fun u hu => h u (List.mem_cons_of_mem _ hu)) y hy)
      · exact joinTokens_chain' (t2 :: ts)
          (fun u hu => h u (List.mem_cons_of_mem _ hu))
    · intro x hx y _
      exact Or.inl ((h t (List.mem_cons_self _ _)).2 x
        (List.mem_of_getLast?_eq_some hx))

theorem normChars_word_or_space {c : Char} {l : List Char}
    (h : c ∈ normChars l) : isWordChar c = true ∨ c = ' ' := by
  rcases mem_joinTokens h with rfl | ⟨t, ht, hc⟩
  · exact Or.inr rfl
  · left
    have hfree := (tokenize_tokens_ok _ t ht).2 c hc
    have hkeep : keepChar c = true :=
      (List.mem_filter.mp (tokenize_mem _ t ht c hc)).2
    unfold keepChar at hkeep
    simpa [hfree] using hkeep

/-! ## Claim C9 -/

/-- C9: for every string `s`, `normalize_text (normalize_text s) =
normalize_text s` — normalization is idempotent. -/
theorem claim_C9_normalize_idempotent (s : String) :
    normalize_text (normalize_text s) = normalize_text s := by
  show String.mk (normChars (normChars s.data)) = String.mk (normChars s.data)
  exact congrArg String.mk (normChars_idem s.data)

/-! ## Claim C5

The claim says `normalize_text` "removes every character that is neither
alphanumeric nor whitespace".  The source regex is `re.sub(r'[^\w\s]',
'', ...)`, and `\w` also matches the underscore, which is neither
alphanumeric nor whitespace; `normalize_text "_"` keeps it. -/

/-- C5 counterexample: on input `"_"` the output retains `'_'`, a
character that is neither alphanumeric nor whitespace, so the claimed
removal property fails. -/
theorem claim_C5_counterexample :
    ¬ (∀ c ∈ (normalize_text "_").data,
        c.isAlphanum = true ∨ isSpaceChar c = true) := by
  decide

/-- Joining tokens with single spaces is `List.intercalate [' ']`. -/
theorem joinTokens_eq_intercalate :
    ∀ ts : List (List Char), joinTokens ts = List.intercalate [' '] ts
  | [] => rfl
  | [t] => by
    rw [joinTokens_single]
    simp [List.intercalate]
  | t :: t2 :: ts => by
    rw [joinTokens_cons2, joinTokens_eq_intercalate (t2 :: ts)]
    simp [List.intercalate, List.flatten_cons]

/-- C5 (amended): `normalize_text` is a total pure function that
lower-cases the text, removes every character that is not a word
character (alphanumeric or underscore) and not whitespace, collapses
each whitespace run to a single space, and trims both ends; empty input
yields the empty string.  Stated as: (1) the non-space content of the
output is exactly the lower-cased word characters of the input, in
order; (2) every output character is lower-case-stable, and is a word
character or a single space `' '`; (3)–(5) no leading, trailing, or
adjacent pair of whitespace characters occurs; (6) the output is
exactly the maximal whitespace-free tokens of the lower-cased,
filtered input joined by single spaces (`List.intercalate [' ']`) — so
each whitespace run that separated words collapses to exactly one
space, none is deleted; (7) `normalize_text ""` is `""`. -/
theorem claim_C5_amended (s : String) :
    (normalize_text s).data.filter (fun c => !isSpaceChar c) =
        (s.data.map Char.toLower).filter isWordChar
    ∧ (∀ c ∈ (normalize_text s).data,
        c.toLower = c ∧ (isWordChar c = true ∨ c = ' '))
    ∧ (∀ c ∈ (normalize_text s).data.head?, isSpaceChar c = false)
    ∧ (∀ c ∈ (normalize_text s).data.getLast?, isSpaceChar c = false)
    ∧ (normalize_text s).data.Chain'
        (fun a b => isSpaceChar a = false ∨ isSpaceChar b = false)
    ∧ (normalize_text s).data =
        List.intercalate [' ']
          (tokenize ((s.data.map Char.toLower).filter keepChar))
    ∧ normalize_text "" = "" := by
  have hdata : (normalize_text s).data = normChars s.data := rfl
  refine ⟨?_, ?_, ?_, ?_, ?_, ?_, rfl⟩
  · rw [hdata]
    exact normChars_content s.data
  · intro c hc
    rw [hdata] at hc
    exact ⟨normChars_toLower_fixed hc, normChars_word_or_space hc⟩
  · rw [hdata]
    exact joinTokens_head _ (tokenize_tokens_ok _)
  · rw [hdata]
    exact joinTokens_getLast _ (tokenize_tokens_ok _)
  · rw [hdata]
    exact joinTokens_chain' _ (tokenize_tokens_ok _)
  · rw [hdata]
    exact joinTokens_eq_intercalate _

/-- Witness for C5 (amended) at the concrete input `" A  b!c "`. -/
theorem claim_C5_amended_witness :
    'a'.toLower = 'a' ∧ (isWordChar 'a' = true ∨ 'a' = ' ') :=
  (claim_C5_amended " A  b!c ").2.1 'a' (by decide)

/-! ## Python string primitives used by the pipeline -/

/-- Python `str.strip()` (ASCII whitespace scope). -/
def pyStrip (s : String) : String :=
  String.mk (((s.data.dropWhile isSpaceChar).reverse.dropWhile
    isSpaceChar).reverse)

/-- Python `str.lower()` (ASCII scope). -/
def strLower (s : String) : String :=
  String.mk (s.data.map Char.toLower)

/-- Python truthiness of an optional string: `None` and `""` are falsy. -/
def strTruthy : Option String → Bool
  | none => false
  | some s => s != ""

/-- Python truthiness of an optional integer: `None` and `0` are falsy. -/
def intTruthy : Option Int → Bool
  | none => false
  | some n => n != 0

/-- Python `pat in s` substring test. -/
def containsSub (s pat : String) : Bool :=
  decide (pat.data <:+: s.data)

/-- State-passing core of Python `str.title()`: upper-case a character
after a non-alphabetic character, lower-case it otherwise. -/
def pyTitleAux : Bool → List Char → List Char
  | _, [] => []
  | prevAlpha, c :: cs =>
    (if prevAlpha then c.toLower else c.toUpper) ::
      pyTitleAux c.isAlpha cs

/-- Python `str.title()` (ASCII scope). -/
def pyTitle (s : String) : String :=
  String.mk (pyTitleAux false s.data)

/-- Python `int(s)` on an already-stripped string: optional sign, then
decimal digits; anything else raises `ValueError` (`none`). -/
def pyInt (s : String) : Option Int :=
  let digitsVal : List Char → Int := fun ds =>
    ds.foldl (fun acc c => acc * 10 + Int.ofNat (c.toNat - 48)) 0
  match s.data with
  | [] => none
  | '-' :: ds =>
    if ds ≠ [] ∧ ds.all Char.isDigit then some (-(digitsVal ds)) else none
  | '+' :: ds =>
    if ds ≠ [] ∧ ds.all Char.isDigit then some (digitsVal ds) else none
  | ds =>
    if ds.all Char.isDigit then some (digitsVal ds) else none

/-! ## Data model

`Book` is the SQLAlchemy row of `models.py` (the fields the import
pipeline touches); optional columns are `Option`s, the text columns the
CSV import always sets (possibly to `""`) are plain `String`s, matching
the values the code stores. -/

structure Book where
  title : String
  author : String
  isbn : Option String := none
  book_type : Option String := none
  genre : String := ""
  sub_genre : Option String := none
  topic : String := ""
  lexile_rating : String := ""
  grade : Option Int := none
  owned : String := "Not Owned"
  openlibrary_id : Option String := none
  description : Option String := none
  cover_url : Option String := none
  publication_year : Option Int := none
deriving DecidableEq

/-- A CSV row as produced by `csv.DictReader`: field values are the cell
strings (`none` for an absent column), and the two `has*Key` flags model
the `'title' not in row` / `'author' not in row` checks. -/
structure Row where
  hasTitleKey : Bool := true
  hasAuthorKey : Bool := true
  title : Option String := none
  author : Option String := none
  isbn : Option String := none
  book_type : Option String := none
  genre : Option String := none
  sub_genre : Option String := none
  topic : Option String := none
  lexile_rating : Option String := none
  grade : Option String := none
  owned : Option String := none
deriving DecidableEq

/-- `OpenLibraryWork` (openlibrary_service.py, attrs class): the fields
of a search result relevant to the import pipeline. -/
structure OpenLibraryWork where
  key : String
  title : String
  author_name : List String := []
  subject : Option (List String) := none
  first_publish_year : Option Int := none
  cover_i : Option Int := none
  description : Option String := none
deriving DecidableEq

/-- The dict returned by `OpenLibraryService.get_book_by_isbn` (lines
101-149).  Keys that are set only conditionally are `Option`s.  The
source stores the raw `publish_date` value under `publication_year`
(line 118); it is modelled as an opaque optional value copied through
unchanged. -/
structure IsbnData where
  title : String := ""
  openlibrary_id : String := ""
  author : Option String := none
  description : Option String := none
  cover_url : Option String := none
  genre : Option String := none
  publication_year : Option Int := none
deriving DecidableEq

/-- The dict interface `enrich_book_from_openlibrary` reads from
`ol_data` (lines 30, 55, 61, 67). -/
structure OLDict where
  subjects : Option (List String) := none
  publication_year : Option Int := none
  cover_id : Option Int := none
  openlibrary_id : Option String := none
deriving DecidableEq

/-- The OpenLibrary network boundary, passed explicitly: `byIsbn` is
`OpenLibraryService.get_book_by_isbn` (never raises; `none` on any
failure), `search` is the first result of `OpenLibraryService.search_books`
for the query built from an author and a title (`none` models network
error, parse failure, or an empty result list — the `[0]` on an empty
list raises `IndexError`, which the caller catches). -/
structure Oracle where
  byIsbn : String → Option IsbnData
  search : String → String → Option OpenLibraryWork

/-- The oracle of a failing/offline bibliographic client. -/
def failOracle : Oracle :=
  ⟨fun _ => none, fun _ _ => none⟩

/-- `OpenLibraryService.get_cover_url` (lines 176-185). -/
def get_cover_url (isbn : Option String) (cover_id : Option Int)
    (size : String) : String :=
  if strTruthy isbn then
    "https://covers.openlibrary.org/b/isbn/" ++ isbn.getD "" ++ "-" ++
      size ++ ".jpg"
  else if intTruthy cover_id then
    "https://covers.openlibrary.org/b/id/" ++ toString (cover_id.getD 0) ++
      "-" ++ size ++ ".jpg"
  else ""

/-! ## Genre classifier (book-type scan) -/

/-- `KNOWN_GENRES` (book_import_service.py lines 25-29). -/
def KNOWN_GENRES : List String :=
  ["Fantasy", "Science Fiction", "Mystery", "Romance", "Historical Fiction",
   "Biography", "Self-Help", "Adventure", "Horror", "Thriller",
   "History", "Science", "Poetry", "Drama", "Children\x27s Fiction",
   "Young Adult"]

/-- Book-type scan over subject tags: lines 33-39 of
`enrich_book_from_openlibrary` and, identically, lines 71-76 of
`get_best_bet_genres_from_subjects`: any lower-cased tag containing
"non-fiction"/"nonfiction"/"non fiction" as a substring gives
Non-Fiction; else a tag lower-casing to exactly "fiction" gives Fiction;
else no book type. -/
def bookTypeFromSubjects (subjects : List String) : Option String :=
  let lower_subjects := subjects.map strLower
  if lower_subjects.any (fun s =>
      containsSub s "nonfiction" || containsSub s "non-fiction" ||
        containsSub s "non fiction") then
    some "Non-Fiction"
  else if lower_subjects.contains "fiction" then
    some "Fiction"
  else
    none

/-- `WorkWrapper.get_book_type` (csv_cli.py lines 130-144) in the
non-interactive case (`ask = False`; with `ask = True` a missing result
prompts the operator instead). -/
def get_book_type (subject : Option (List String)) : Option String :=
  let subjects := subject.getD []
  let non_fiction_subjects := subjects.filter (fun s =>
    containsSub (strLower s) "non-fiction" ||
      containsSub (strLower s) "nonfiction" ||
      containsSub (strLower s) "non fiction")
  if non_fiction_subjects != [] then some "Non-Fiction"
  else if subjects.any (fun s => strLower s == "fiction") then some "Fiction"
  else none

/-! ## Claim C6 -/

/-- The Non-Fiction trigger of the claim: some tag's lower-casing
contains one of the three markers as a substring. -/
def NonFictionTagged (subjects : List String) : Prop :=
  ∃ s ∈ subjects,
    ("nonfiction").data <:+: (strLower s).data ∨
    ("non-fiction").data <:+: (strLower s).data ∨
    ("non fiction").data <:+: (strLower s).data

/-- The Fiction trigger of the claim: some tag equals "fiction"
case-insensitively. -/
def FictionTagged (subjects : List String) : Prop :=
  ∃ s ∈ subjects, strLower s = "fiction"

theorem bookType_nf_cond (subjects : List String) :
    ((subjects.map strLower).any (fun s =>
        containsSub s "nonfiction" || containsSub s "non-fiction" ||
          containsSub s "non fiction") = true) ↔
      NonFictionTagged subjects := by
  rw [List.any_eq_true]
  constructor
  · rintro ⟨x, hx, hp⟩
    rcases List.mem_map.mp hx with ⟨s, hs, rfl⟩
    refine ⟨s, hs, ?_⟩
    simpa [containsSub, Bool.or_eq_true, decide_eq_true_eq,
      or_assoc] using hp
  · rintro ⟨s, hs, hp⟩
    refine ⟨strLower s, List.mem_map_of_mem _ hs, ?_⟩
    simpa [containsSub, Bool.or_eq_true, decide_eq_true_eq,
      or_assoc] using hp

theorem bookType_f_cond (subjects : List String) :
    ((subjects.map strLower).contains "fiction" = true) ↔
      FictionTagged subjects := by
  rw [List.elem_iff]
  constructor
  · intro hx
    rcases List.mem_map.mp hx with ⟨s, hs, hfs⟩
    exact ⟨s, hs, hfs⟩
  · rintro ⟨s, hs, hfs⟩
    exact hfs ▸ List.mem_map_of_mem _ hs

theorem get_book_type_nf_cond (subjects : List String) :
    ((subjects.filter (fun s =>
        containsSub (strLower s) "non-fiction" ||
          containsSub (strLower s) "nonfiction" ||
          containsSub (strLower s) "non fiction") != []) = true) ↔
      NonFictionTagged subjects := by
  rw [bne_iff_ne, ne_eq, List.filter_eq_nil_iff]
  push_neg
  constructor
  · rintro ⟨s, hs, hp⟩
    refine ⟨s, hs, ?_⟩
    simpa [containsSub, Bool.or_eq_true, decide_eq_true_eq,
      or_assoc, or_comm, or_left_comm] using hp
  · rintro ⟨s, hs, hp⟩
    refine ⟨s, hs, ?_⟩
    simpa [containsSub, Bool.or_eq_true, decide_eq_true_eq,
      or_assoc, or_comm, or_left_comm] using hp

theorem get_book_type_f_cond (subjects : List String) :
    (subjects.any (fun s => strLower s == "fiction") = true) ↔
      FictionTagged subjects := by
  rw [List.any_eq_true]
  constructor
  · rintro ⟨s, hs, hp⟩
    exact ⟨s, hs, by simpa using hp⟩
  · rintro ⟨s, hs, hp⟩
    exact ⟨s, hs, by simpa using hp⟩

/-- C6: for every list of subject tags, the classifier assigns
Non-Fiction when some lower-cased tag contains "non-fiction",
"nonfiction" or "non fiction" as a substring; otherwise Fiction when
some tag equals "fiction" case-insensitively; otherwise leaves the book
type unset.  Both the `enrich_book_from_openlibrary` /
`get_best_bet_genres_from_subjects` scan (`bookTypeFromSubjects`) and
the non-interactive `WorkWrapper.get_book_type` obey this rule. -/
theorem claim_C6_book_type (subjects : List String) :
    (NonFictionTagged subjects →
      bookTypeFromSubjects subjects = some "Non-Fiction" ∧
      get_book_type (some subjects) = some "Non-Fiction")
    ∧ (¬ NonFictionTagged subjects → FictionTagged subjects →
      bookTypeFromSubjects subjects = some "Fiction" ∧
      get_book_type (some subjects) = some "Fiction")
    ∧ (¬ NonFictionTagged subjects → ¬ FictionTagged subjects →
      bookTypeFromSubjects subjects = none ∧
      get_book_type (some subjects) = none) := by
  refine ⟨?_, ?_, ?_⟩
  · intro hnf
    constructor
    · unfold bookTypeFromSubjects
      rw [if_pos ((bookType_nf_cond subjects).mpr hnf)]
    · unfold get_book_type
      simp only [Option.getD]
      rw [if_pos ((get_book_type_nf_cond subjects).mpr hnf)]
  · intro hnf hf
    constructor
    · unfold bookTypeFromSubjects
      rw [if_neg (fun hc => hnf ((bookType_nf_cond subjects).mp hc)),
        if_pos ((bookType_f_cond subjects).mpr hf)]
    · unfold get_book_type
      simp only [Option.getD]
      rw [if_neg (fun hc => hnf ((get_book_type_nf_cond subjects).mp hc)),
        if_pos ((get_book_type_f_cond subjects).mpr hf)]
  · intro hnf hf
    constructor
    · unfold bookTypeFromSubjects
      rw [if_neg (fun hc => hnf ((bookType_nf_cond subjects).mp hc)),
        if_neg (fun hc => hf ((bookType_f_cond subjects).mp hc))]
    · unfold get_book_type
      simp only [Option.getD]
      rw [if_neg (fun hc => hnf ((get_book_type_nf_cond subjects).mp hc)),
        if_neg (fun hc => hf ((get_book_type_f_cond subjects).mp hc))]

/-- Witness for C6 at concrete tag lists. -/
theorem claim_C6_book_type_witness :
    (bookTypeFromSubjects ["Juvenile Nonfiction"] = some "Non-Fiction" ∧
      get_book_type (some ["Juvenile Nonfiction"]) = some "Non-Fiction")
    ∧ (bookTypeFromSubjects ["FICTION", "Magic"] = some "Fiction" ∧
      get_book_type (some ["FICTION", "Magic"]) = some "Fiction")
    ∧ (bookTypeFromSubjects ["Magic"] = none ∧
      get_book_type (some ["Magic"]) = none) :=
  ⟨(claim_C6_book_type ["Juvenile Nonfiction"]).1
      ⟨"Juvenile Nonfiction", by decide, by decide⟩,
    (claim_C6_book_type ["FICTION", "Magic"]).2.1
      (fun h => absurd ((bookType_nf_cond _).mpr h) (by decide))
      ⟨"FICTION", by decide, by decide⟩,
    (claim_C6_book_type ["Magic"]).2.2
      (fun h => absurd ((bookType_nf_cond _).mpr h) (by decide))
      (fun h => absurd ((bookType_f_cond _).mpr h) (by decide))⟩

/-! ## csv_cli record and merge (csv_cli.py lines 220-316) -/

/-- `CSVBookRecord` (csv_cli.py lines 220-246). -/
structure CSVBookRecord where
  title : String
  author : String
  openlibrary_id : Option String := none
  publication_year : Option Int := none
  cover_url : Option String := none
  book_type : Option String := none
  sub_genre : Option String := none
  genre : Option String := none
  topic : Option String := none
  lexile_rating : Option String := none
  grade : Option Int := none
  owned : String := "Not Owned"
  description : Option String := none
deriving DecidableEq

/-- Python `dict` lookup on an association list where later bindings
override earlier ones. -/
def dictGet (pairs : List (String × String)) (k : String) : Option String :=
  (pairs.reverse.find? (fun p => p.1 == k)).map (·.2)

/-- Python `dict1 | dict2` on association lists with distinct keys per
list: `dict2` overrides on common keys, new keys of `dict2` follow. -/
def dictUnion (a b : List (String × List String)) :
    List (String × List String) :=
  a.map (fun p => match b.find? (fun q => q.1 == p.1) with
    | some q => (p.1, q.2)
    | none => p) ++
  b.filter (fun q => !(a.any (fun p => p.1 == q.1)))

/-- `get_best_bet_genres_from_subjects` (csv_cli.py lines 63-108),
returning `(book_type, genre, sub_genre)`.  The genre reference data
(`get_genres_from_db` per book type) is passed in as association lists
of genre name to sub-genre names; the line 105-106 book-type back-fill
(`Genre.query.filter_by(name=...).first().book_type`) is modelled as a
lookup in the fiction table first, then the non-fiction table. -/
def get_best_bet_genres_from_subjects
    (fictionGenres nonfictionGenres : List (String × List String))
    (subjects : List String) :
    Option String × Option String × Option String :=
  let lower_subjects := subjects.map strLower
  let book_type := bookTypeFromSubjects subjects
  let known_genres :=
    match book_type with
    | some "Non-Fiction" => nonfictionGenres
    | some _ => fictionGenres
    | none => dictUnion fictionGenres nonfictionGenres
  let lower_known_genres := (known_genres.map (·.1)).map strLower
  let norm_map := lower_known_genres.zip (known_genres.map (·.1))
  let possible_genres :=
    (lower_subjects.filter (fun g => lower_known_genres.contains g)).filterMap
      (fun g => dictGet norm_map g)
  match possible_genres with
  | [] => (book_type, none, none)
  | g :: _ =>
    let known_sub_genres :=
      ((known_genres.find? (fun p => p.1 == g)).map (·.2)).getD []
    let lower_known_sub_genres := known_sub_genres.map strLower
    let possible_sub_genres :=
      (List.zip known_sub_genres lower_known_sub_genres).filterMap
        (fun p => if lower_subjects.contains p.2 then some p.1 else none)
    let sub_genre := possible_sub_genres.head?
    let book_type :=
      if book_type = none then
        match fictionGenres.find? (fun p => p.1 == g) with
        | some _ => some "Fiction"
        | none =>
          match nonfictionGenres.find? (fun p => p.1 == g) with
          | some _ => some "Non-Fiction"
          | none => none
      else book_type
    (book_type, some g, sub_genre)

/-- The `attrs.evolve` merge of `CSVBookRecord.update_from_openlibrary_work`
(csv_cli.py lines 306-316): every field is `enrichment_value or
self.field` — the enrichment value wins whenever it is truthy. -/
def update_merge (self : CSVBookRecord)
    (book_type genre sub_genre topic : Option String) (olid : String)
    (description : Option String) (cover_url : String)
    (publication_year : Option Int) : CSVBookRecord :=
  { self with
    openlibrary_id := if olid != "" then some olid else self.openlibrary_id
    description := if strTruthy description then description
      else self.description
    cover_url := if cover_url != "" then some cover_url else self.cover_url
    publication_year := if intTruthy publication_year then publication_year
      else self.publication_year
    book_type := if strTruthy book_type then book_type else self.book_type
    genre := if strTruthy genre then genre else self.genre
    sub_genre := if strTruthy sub_genre then sub_genre else self.sub_genre
    topic := if strTruthy topic then topic else self.topic }

/-- Python `f"https:...{cover_i}-L.jpg"`: `None` renders as `"None"`. -/
def coverIStr : Option Int → String
  | some n => toString n
  | none => "None"

/-- `CSVBookRecord.update_from_openlibrary_work` (csv_cli.py lines
271-316) on the fully automatic path (`quick = True`, wrapper built with
`ask = False`, as used for non-interactive enrichment): classification
comes from `get_best_bet_genres_from_subjects`, `get_topic` returns
`None` when it may not prompt, the cover URL f-string is always a
non-empty string, and the update is applied without the interactive
confirmation. -/
def update_from_openlibrary_work (self : CSVBookRecord)
    (fictionGenres nonfictionGenres : List (String × List String))
    (w : OpenLibraryWork) : CSVBookRecord :=
  let g := get_best_bet_genres_from_subjects fictionGenres nonfictionGenres
    (w.subject.getD [])
  update_merge self g.1 g.2.1 g.2.2 none w.key w.description
    ("https://covers.openlibrary.org/b/id/" ++ coverIStr w.cover_i ++
      "-L.jpg")
    w.first_publish_year

/-! ## `enrich_book_from_openlibrary` (book_import_service.py lines 8-75)

The guard at line 9 and the `try`/`except` around the search (lines
12-20) execute as written.  The body from line 30 on, however, calls
`ol_data.get(...)` — but `search_books` returns `OpenLibraryWork` attrs
objects, which have no `get` method, so at run time any successful
search raises `AttributeError` at line 30, outside the `try`
(`enrich_book_from_openlibrary_run` below).  The body itself
(lines 25-75) is embedded, under the dict interface it was written for,
as the `enrichStep*` functions and `enrichApply`. -/

/-- Line 9 guard: all six enrichable fields already truthy. -/
def enrichFullySet (b : Book) : Bool :=
  strTruthy b.book_type && (b.genre != "") && strTruthy b.sub_genre &&
    intTruthy b.publication_year && strTruthy b.cover_url &&
    strTruthy b.openlibrary_id

/-- `enrich_book_from_openlibrary` as it actually executes:
`searchResult` is the first search hit if any (`none` on network error,
parse failure, or no match — all caught at lines 18-20, returning
`False`).  A successful search reaches `ol_data.get('subjects')` at
line 30 and raises `AttributeError` (uncaught here). -/
def enrich_book_from_openlibrary_run (b : Book)
    (searchResult : Option OpenLibraryWork) : Except String (Book × Bool) :=
  if enrichFullySet b then .ok (b, false)
  else
    match searchResult with
    | none => .ok (b, false)
    | some _ =>
      .error "AttributeError: \x27OpenLibraryWork\x27 object has no attribute \x27get\x27"

/-- Lines 33-39: fill `book_type` from the subject scan. -/
def enrichStepBookType (subjects : List String) (b : Book) : Book :=
  if strTruthy b.book_type then b
  else
    match bookTypeFromSubjects subjects with
    | some t => { b with book_type := some t }
    | none => b

/-- Lines 41-46: fill `genre` with the title-cased first lower-cased
subject appearing in `KNOWN_GENRES`. -/
def enrichStepGenre (lower_subjects : List String) (b : Book) : Book :=
  if b.genre != "" then b
  else
    match lower_subjects.find?
        (fun s => (KNOWN_GENRES.map strLower).contains s) with
    | some s => { b with genre := pyTitle s }
    | none => b

/-- Lines 48-52: fill `sub_genre` with the first subject whose
lower-casing contains neither "fiction" nor "non". -/
def enrichStepSubGenre (subjects : List String) (b : Book) : Book :=
  if strTruthy b.sub_genre then b
  else if subjects != [] then
    match subjects.find? (fun s =>
        !(containsSub (strLower s) "fiction") &&
          !(containsSub (strLower s) "non")) with
    | some p => if p != "" then { b with sub_genre := some p } else b
    | none => b
  else b

/-- Lines 54-58: fill `publication_year`. -/
def enrichStepYear (ol : OLDict) (b : Book) : Book :=
  if intTruthy b.publication_year then b
  else if intTruthy ol.publication_year then
    { b with publication_year := ol.publication_year }
  else b

/-- Lines 59-64: fill `cover_url` from the cover identifier. -/
def enrichStepCover (ol : OLDict) (b : Book) : Book :=
  if strTruthy b.cover_url then b
  else if intTruthy ol.cover_id then
    { b with cover_url := some (get_cover_url none ol.cover_id "L") }
  else b

/-- Lines 66-70: fill `openlibrary_id`. -/
def enrichStepOlid (ol : OLDict) (b : Book) : Book :=
  if strTruthy b.openlibrary_id then b
  else if strTruthy ol.openlibrary_id then
    { b with openlibrary_id := ol.openlibrary_id }
  else b

/-- The enrichment body (lines 25-75) under the dict interface it was
written for: runs the six fill steps in source order. -/
def enrichApply (b : Book) (ol : OLDict) : Book :=
  let subjects := ol.subjects.getD []
  let lower_subjects := subjects.map strLower
  enrichStepOlid ol (enrichStepCover ol (enrichStepYear ol
    (enrichStepSubGenre subjects (enrichStepGenre lower_subjects
      (enrichStepBookType subjects b)))))

/-! ### Field projections of the enrichment steps -/

theorem stepBookType_genre (s : List String) (b : Book) :
    (enrichStepBookType s b).genre = b.genre := by
  unfold enrichStepBookType
  repeat (first | rfl | split)

theorem stepBookType_sub_genre (s : List String) (b : Book) :
    (enrichStepBookType s b).sub_genre = b.sub_genre := by
  unfold enrichStepBookType
  repeat (first | rfl | split)

theorem stepBookType_year (s : List String) (b : Book) :
    (enrichStepBookType s b).publication_year = b.publication_year := by
  unfold enrichStepBookType
  repeat (first | rfl | split)

theorem stepBookType_cover (s : List String) (b : Book) :
    (enrichStepBookType s b).cover_url = b.cover_url := by
  unfold enrichStepBookType
  repeat (first | rfl | split)

theorem stepBookType_olid (s : List String) (b : Book) :
    (enrichStepBookType s b).openlibrary_id = b.openlibrary_id := by
  unfold enrichStepBookType
  repeat (first | rfl | split)

theorem stepGenre_book_type (ls : List String) (b : Book) :
    (enrichStepGenre ls b).book_type = b.book_type := by
  unfold enrichStepGenre
  repeat (first | rfl | split)

theorem stepGenre_sub_genre (ls : List String) (b : Book) :
    (enrichStepGenre ls b).sub_genre = b.sub_genre := by
  unfold enrichStepGenre
  repeat (first | rfl | split)

theorem stepGenre_year (ls : List String) (b : Book) :
    (enrichStepGenre ls b).publication_year = b.publication_year := by
  unfold enrichStepGenre
  repeat (first | rfl | split)

theorem stepGenre_cover (ls : List String) (b : Book) :
    (enrichStepGenre ls b).cover_url = b.cover_url := by
  unfold enrichStepGenre
  repeat (first | rfl | split)

theorem stepGenre_olid (ls : List String) (b : Book) :
    (enrichStepGenre ls b).openlibrary_id = b.openlibrary_id := by
  unfold enrichStepGenre
  repeat (first | rfl | split)

theorem stepSubGenre_book_type (s : List String) (b : Book) :
    (enrichStepSubGenre s b).book_type = b.book_type := by
  unfold enrichStepSubGenre
  repeat (first | rfl | split)

theorem stepSubGenre_genre (s : List String) (b : Book) :
    (enrichStepSubGenre s b).genre = b.genre := by
  unfold enrichStepSubGenre
  repeat (first | rfl | split)

theorem stepSubGenre_year (s : List String) (b : Book) :
    (enrichStepSubGenre s b).publication_year = b.publication_year := by
  unfold enrichStepSubGenre
  repeat (first | rfl | split)

theorem stepSubGenre_cover (s : List String) (b : Book) :
    (enrichStepSubGenre s b).cover_url = b.cover_url := by
  unfold enrichStepSubGenre
  repeat (first | rfl | split)

theorem stepSubGenre_olid (s : List String) (b : Book) :
    (enrichStepSubGenre s b).openlibrary_id = b.openlibrary_id := by
  unfold enrichStepSubGenre
  repeat (first | rfl | split)

theorem stepYear_book_type (ol : OLDict) (b : Book) :
    (enrichStepYear ol b).book_type = b.book_type := by
  unfold enrichStepYear
  repeat (first | rfl | split)

theorem stepYear_genre (ol : OLDict) (b : Book) :
    (enrichStepYear ol b).genre = b.genre := by
  unfold enrichStepYear
  repeat (first | rfl | split)

theorem stepYear_sub_genre (ol : OLDict) (b : Book) :
    (enrichStepYear ol b).sub_genre = b.sub_genre := by
  unfold enrichStepYear
  repeat (first | rfl | split)

theorem stepYear_cover (ol : OLDict) (b : Book) :
    (enrichStepYear ol b).cover_url = b.cover_url := by
  unfold enrichStepYear
  repeat (first | rfl | split)

theorem stepYear_olid (ol : OLDict) (b : Book) :
    (enrichStepYear ol b).openlibrary_id = b.openlibrary_id := by
  unfold enrichStepYear
  repeat (first | rfl | split)

theorem stepCover_book_type (ol : OLDict) (b : Book) :
    (enrichStepCover ol b).book_type = b.book_type := by
  unfold enrichStepCover
  repeat (first | rfl | split)

theorem stepCover_genre (ol : OLDict) (b : Book) :
    (enrichStepCover ol b).genre = b.genre := by
  unfold enrichStepCover
  repeat (first | rfl | split)

theorem stepCover_sub_genre (ol : OLDict) (b : Book) :
    (enrichStepCover ol b).sub_genre = b.sub_genre := by
  unfold enrichStepCover
  repeat (first | rfl | split)

theorem stepCover_year (ol : OLDict) (b : Book) :
    (enrichStepCover ol b).publication_year = b.publication_year := by
  unfold enrichStepCover
  repeat (first | rfl | split)

theorem stepCover_olid (ol : OLDict) (b : Book) :
    (enrichStepCover ol b).openlibrary_id = b.openlibrary_id := by
  unfold enrichStepCover
  repeat (first | rfl | split)

theorem stepOlid_book_type (ol : OLDict) (b : Book) :
    (enrichStepOlid ol b).book_type = b.book_type := by
  unfold enrichStepOlid
  repeat (first | rfl | split)

theorem stepOlid_genre (ol : OLDict) (b : Book) :
    (enrichStepOlid ol b).genre = b.genre := by
  unfold enrichStepOlid
  repeat (first | rfl | split)

theorem stepOlid_sub_genre (ol : OLDict) (b : Book) :
    (enrichStepOlid ol b).sub_genre = b.sub_genre := by
  unfold enrichStepOlid
  repeat (first | rfl | split)

theorem stepOlid_year (ol : OLDict) (b : Book) :
    (enrichStepOlid ol b).publication_year = b.publication_year := by
  unfold enrichStepOlid
  repeat (first | rfl | split)

theorem stepOlid_cover (ol : OLDict) (b : Book) :
    (enrichStepOlid ol b).cover_url = b.cover_url := by
  unfold enrichStepOlid
  repeat (first | rfl | split)

/-! ### Own-field behavior of the enrichment steps -/

theorem stepBookType_own_pos {b : Book} (s : List String)
    (h : strTruthy b.book_type = true) :
    (enrichStepBookType s b).book_type = b.book_type := by
  unfold enrichStepBookType
  rw [if_pos h]

theorem stepBookType_own_neg {b : Book} (s : List String)
    (h : strTruthy b.book_type = false) :
    (enrichStepBookType s b).book_type =
      (match bookTypeFromSubjects s with
        | some t => some t
        | none => b.book_type) := by
  unfold enrichStepBookType
  rw [if_neg (by simp [h])]
  cases bookTypeFromSubjects s <;> rfl

theorem stepGenre_own_pos {b : Book} (ls : List String) (h : b.genre ≠ "") :
    (enrichStepGenre ls b).genre = b.genre := by
  unfold enrichStepGenre
  rw [if_pos (bne_iff_ne.mpr h)]

theorem stepSubGenre_own_pos {b : Book} (s : List String)
    (h : strTruthy b.sub_genre = true) :
    (enrichStepSubGenre s b).sub_genre = b.sub_genre := by
  unfold enrichStepSubGenre
  rw [if_pos h]

theorem stepYear_own_pos {b : Book} (ol : OLDict)
    (h : intTruthy b.publication_year = true) :
    (enrichStepYear ol b).publication_year = b.publication_year := by
  unfold enrichStepYear
  rw [if_pos h]

theorem stepYear_own_neg {b : Book} (ol : OLDict)
    (h : intTruthy b.publication_year = false) :
    (enrichStepYear ol b).publication_year =
      (if intTruthy ol.publication_year then ol.publication_year
        else b.publication_year) := by
  unfold enrichStepYear
  rw [if_neg (by simp [h])]
  split <;> rfl

theorem stepCover_own_pos {b : Book} (ol : OLDict)
    (h : strTruthy b.cover_url = true) :
    (enrichStepCover ol b).cover_url = b.cover_url := by
  unfold enrichStepCover
  rw [if_pos h]

theorem stepOlid_own_pos {b : Book} (ol : OLDict)
    (h : strTruthy b.openlibrary_id = true) :
    (enrichStepOlid ol b).openlibrary_id = b.openlibrary_id := by
  unfold enrichStepOlid
  rw [if_pos h]

theorem stepOlid_own_neg {b : Book} (ol : OLDict)
    (h : strTruthy b.openlibrary_id = false) :
    (enrichStepOlid ol b).openlibrary_id =
      (if strTruthy ol.openlibrary_id then ol.openlibrary_id
        else b.openlibrary_id) := by
  unfold enrichStepOlid
  rw [if_neg (by simp [h])]
  split <;> rfl

theorem stepGenre_own_neg {b : Book} (ls : List String) (h : b.genre = "") :
    (enrichStepGenre ls b).genre =
      (match ls.find? (fun s => (KNOWN_GENRES.map strLower).contains s) with
        | some s => pyTitle s
        | none => b.genre) := by
  unfold enrichStepGenre
  rw [if_neg (by simp [h])]
  cases ls.find? (fun s => (KNOWN_GENRES.map strLower).contains s) <;> rfl

theorem stepSubGenre_own_neg {b : Book} (s : List String)
    (h : strTruthy b.sub_genre = false) :
    (enrichStepSubGenre s b).sub_genre =
      (if s != [] then
        match s.find? (fun x => !(containsSub (strLower x) "fiction") &&
            !(containsSub (strLower x) "non")) with
        | some p => if p != "" then some p else b.sub_genre
        | none => b.sub_genre
      else b.sub_genre) := by
  unfold enrichStepSubGenre
  rw [if_neg (by simp [h])]
  split
  · cases s.find? (fun x => !(containsSub (strLower x) "fiction") &&
        !(containsSub (strLower x) "non")) with
    | none => rfl
    | some p => rw [apply_ite Book.sub_genre]
  · rfl

theorem stepCover_own_neg {b : Book} (ol : OLDict)
    (h : strTruthy b.cover_url = false) :
    (enrichStepCover ol b).cover_url =
      (if intTruthy ol.cover_id then some (get_cover_url none ol.cover_id "L")
        else b.cover_url) := by
  unfold enrichStepCover
  rw [if_neg (by simp [h])]
  split <;> rfl

/-! ## Claim C2 -/

/-- C2 counterexample: `CSVBookRecord.update_from_openlibrary_work`
merges with `enrichment or local`, so a locally set `book_type` of
`Fiction` is overwritten by an enrichment result of `Non-Fiction`,
contradicting "enrichment never overwrites a field the local/CSV source
already populated". -/
theorem claim_C2_counterexample :
    strTruthy (CSVBookRecord.book_type
      { title := "T", author := "A", book_type := some "Fiction" }) = true
    ∧ (update_from_openlibrary_work
        { title := "T", author := "A", book_type := some "Fiction" } [] []
        { key := "/works/OL1W", title := "T",
          subject := some ["Nonfiction"] }).book_type = some "Non-Fiction"
    ∧ (update_from_openlibrary_work
        { title := "T", author := "A", book_type := some "Fiction" } [] []
        { key := "/works/OL1W", title := "T",
          subject := some ["Nonfiction"] }).book_type ≠ some "Fiction" := by
  refine ⟨rfl, ?_, ?_⟩ <;> decide

/-- C2 (amended): the two merge engines disagree.
`enrich_book_from_openlibrary`'s body (`enrichApply`) is fill-only on
every one of its six fields — a truthy local field is never changed
(conjuncts 1-6), and an absent field is filled from the enrichment data
(conjuncts 7-12: book type from the subject scan, genre from the
known-genre match, sub-genre from the first neutral subject, and
publication year, cover URL and OpenLibrary id from the record),
staying absent when the enrichment also lacks it.
`CSVBookRecord.update_from_openlibrary_work` has the opposite priority
on every field: each merged field is `enrichment or local`, so a truthy
enrichment value overwrites the local field — book type, genre,
sub-genre, OpenLibrary id, description and publication year each take
the enrichment value when it is truthy and keep the local value only
when it is falsy, and the cover URL, an always-nonempty f-string, is
overwritten unconditionally; `topic` (always `None` in non-interactive
mode) and title/author are left alone. -/
theorem claim_C2_amended :
    (∀ (b : Book) (ol : OLDict),
      (strTruthy b.book_type = true →
        (enrichApply b ol).book_type = b.book_type)
      ∧ (b.genre ≠ "" → (enrichApply b ol).genre = b.genre)
      ∧ (strTruthy b.sub_genre = true →
        (enrichApply b ol).sub_genre = b.sub_genre)
      ∧ (intTruthy b.publication_year = true →
        (enrichApply b ol).publication_year = b.publication_year)
      ∧ (strTruthy b.cover_url = true →
        (enrichApply b ol).cover_url = b.cover_url)
      ∧ (strTruthy b.openlibrary_id = true →
        (enrichApply b ol).openlibrary_id = b.openlibrary_id)
      ∧ (strTruthy b.book_type = false →
        (enrichApply b ol).book_type =
          (match bookTypeFromSubjects (ol.subjects.getD []) with
            | some t => some t
            | none => b.book_type))
      ∧ (b.genre = "" →
        (enrichApply b ol).genre =
          (match ((ol.subjects.getD []).map strLower).find?
              (fun s => (KNOWN_GENRES.map strLower).contains s) with
            | some s => pyTitle s
            | none => b.genre))
      ∧ (strTruthy b.sub_genre = false →
        (enrichApply b ol).sub_genre =
          (if (ol.subjects.getD []) != [] then
            match (ol.subjects.getD []).find? (fun x =>
                !(containsSub (strLower x) "fiction") &&
                  !(containsSub (strLower x) "non")) with
            | some p => if p != "" then some p else b.sub_genre
            | none => b.sub_genre
          else b.sub_genre))
      ∧ (intTruthy b.publication_year = false →
        (enrichApply b ol).publication_year =
          (if intTruthy ol.publication_year then ol.publication_year
            else b.publication_year))
      ∧ (strTruthy b.cover_url = false →
        (enrichApply b ol).cover_url =
          (if intTruthy ol.cover_id then
            some (get_cover_url none ol.cover_id "L")
          else b.cover_url))
      ∧ (strTruthy b.openlibrary_id = false →
        (enrichApply b ol).openlibrary_id =
          (if strTruthy ol.openlibrary_id then ol.openlibrary_id
            else b.openlibrary_id)))
    ∧ (∀ (self : CSVBookRecord)
        (fictionGenres nonfictionGenres : List (String × List String))
        (w : OpenLibraryWork),
      (strTruthy (get_best_bet_genres_from_subjects fictionGenres
          nonfictionGenres (w.subject.getD [])).1 = true →
        (update_from_openlibrary_work self fictionGenres nonfictionGenres
          w).book_type =
          (get_best_bet_genres_from_subjects fictionGenres nonfictionGenres
            (w.subject.getD [])).1)
      ∧ (strTruthy (get_best_bet_genres_from_subjects fictionGenres
          nonfictionGenres (w.subject.getD [])).1 = false →
        (update_from_openlibrary_work self fictionGenres nonfictionGenres
          w).book_type = self.book_type)
      ∧ (strTruthy (get_best_bet_genres_from_subjects fictionGenres
          nonfictionGenres (w.subject.getD [])).2.1 = true →
        (update_from_openlibrary_work self fictionGenres nonfictionGenres
          w).genre =
          (get_best_bet_genres_from_subjects fictionGenres nonfictionGenres
            (w.subject.getD [])).2.1)
      ∧ (strTruthy (get_best_bet_genres_from_subjects fictionGenres
          nonfictionGenres (w.subject.getD [])).2.1 = false →
        (update_from_openlibrary_work self fictionGenres nonfictionGenres
          w).genre = self.genre)
      ∧ (strTruthy (get_best_bet_genres_from_subjects fictionGenres
          nonfictionGenres (w.subject.getD [])).2.2 = true →
        (update_from_openlibrary_work self fictionGenres nonfictionGenres
          w).sub_genre =
          (get_best_bet_genres_from_subjects fictionGenres nonfictionGenres
            (w.subject.getD [])).2.2)
      ∧ (strTruthy (get_best_bet_genres_from_subjects fictionGenres
          nonfictionGenres (w.subject.getD [])).2.2 = false →
        (update_from_openlibrary_work self fictionGenres nonfictionGenres
          w).sub_genre = self.sub_genre)
      ∧ (w.key ≠ "" →
        (update_from_openlibrary_work self fictionGenres nonfictionGenres
          w).openlibrary_id = some w.key)
      ∧ (w.key = "" →
        (update_from_openlibrary_work self fictionGenres nonfictionGenres
          w).openlibrary_id = self.openlibrary_id)
      ∧ (strTruthy w.description = true →
        (update_from_openlibrary_work self fictionGenres nonfictionGenres
          w).description = w.description)
      ∧ (strTruthy w.description = false →
        (update_from_openlibrary_work self fictionGenres nonfictionGenres
          w).description = self.description)
      ∧ (intTruthy w.first_publish_year = true →
        (update_from_openlibrary_work self fictionGenres nonfictionGenres
          w).publication_year = w.first_publish_year)
      ∧ (intTruthy w.first_publish_year = false →
        (update_from_openlibrary_work self fictionGenres nonfictionGenres
          w).publication_year = self.publication_year)
      ∧ (update_from_openlibrary_work self fictionGenres nonfictionGenres
          w).cover_url =
        some ("https://covers.openlibrary.org/b/id/" ++
          coverIStr w.cover_i ++ "-L.jpg")
      ∧ (update_from_openlibrary_work self fictionGenres nonfictionGenres
          w).topic = self.topic
      ∧ (update_from_openlibrary_work self fictionGenres nonfictionGenres
          w).title = self.title
      ∧ (update_from_openlibrary_work self fictionGenres nonfictionGenres
          w).author = self.author) := by
  constructor
  · intro b ol
    refine ⟨?_, ?_, ?_, ?_, ?_, ?_, ?_, ?_, ?_, ?_, ?_, ?_⟩
    · intro h
      simp only [enrichApply]
      rw [stepOlid_book_type, stepCover_book_type, stepYear_book_type,
        stepSubGenre_book_type, stepGenre_book_type, stepBookType_own_pos _ h]
    · intro h
      simp only [enrichApply]
      rw [stepOlid_genre, stepCover_genre, stepYear_genre,
        stepSubGenre_genre, stepGenre_own_pos _ (by rw [stepBookType_genre]; exact h)]
      exact stepBookType_genre _ _
    · intro h
      simp only [enrichApply]
      rw [stepOlid_sub_genre, stepCover_sub_genre, stepYear_sub_genre,
        stepSubGenre_own_pos _
          (by rw [stepGenre_sub_genre, stepBookType_sub_genre]; exact h),
        stepGenre_sub_genre, stepBookType_sub_genre]
    · intro h
      simp only [enrichApply]
      rw [stepOlid_year, stepCover_year,
        stepYear_own_pos _
          (by rw [stepSubGenre_year, stepGenre_year, stepBookType_year]
              exact h),
        stepSubGenre_year, stepGenre_year, stepBookType_year]
    · intro h
      simp only [enrichApply]
      rw [stepOlid_cover,
        stepCover_own_pos _
          (by rw [stepYear_cover, stepSubGenre_cover, stepGenre_cover,
                stepBookType_cover]
              exact h),
        stepYear_cover, stepSubGenre_cover, stepGenre_cover,
        stepBookType_cover]
    · intro h
      simp only [enrichApply]
      rw [stepOlid_own_pos _
          (by rw [stepCover_olid, stepYear_olid, stepSubGenre_olid,
                stepGenre_olid, stepBookType_olid]
              exact h),
        stepCover_olid, stepYear_olid, stepSubGenre_olid, stepGenre_olid,
        stepBookType_olid]
    · intro h
      simp only [enrichApply]
      rw [stepOlid_book_type, stepCover_book_type, stepYear_book_type,
        stepSubGenre_book_type, stepGenre_book_type,
        stepBookType_own_neg _ h]
    · intro h
      simp only [enrichApply]
      rw [stepOlid_genre, stepCover_genre, stepYear_genre,
        stepSubGenre_genre,
        stepGenre_own_neg _ (by rw [stepBookType_genre]; exact h),
        stepBookType_genre]
    · intro h
      simp only [enrichApply]
      rw [stepOlid_sub_genre, stepCover_sub_genre, stepYear_sub_genre,
        stepSubGenre_own_neg _
          (by rw [stepGenre_sub_genre, stepBookType_sub_genre]; exact h),
        stepGenre_sub_genre, stepBookType_sub_genre]
    · intro h
      simp only [enrichApply]
      rw [stepOlid_year, stepCover_year,
        stepYear_own_neg _
          (by rw [stepSubGenre_year, stepGenre_year, stepBookType_year]
              exact h),
        stepSubGenre_year, stepGenre_year, stepBookType_year]
    · intro h
      simp only [enrichApply]
      rw [stepOlid_cover,
        stepCover_own_neg _
          (by rw [stepYear_cover, stepSubGenre_cover, stepGenre_cover,
                stepBookType_cover]
              exact h),
        stepYear_cover, stepSubGenre_cover, stepGenre_cover,
        stepBookType_cover]
    · intro h
      simp only [enrichApply]
      rw [stepOlid_own_neg _
          (by rw [stepCover_olid, stepYear_olid, stepSubGenre_olid,
                stepGenre_olid, stepBookType_olid]
              exact h),
        stepCover_olid, stepYear_olid, stepSubGenre_olid, stepGenre_olid,
        stepBookType_olid]
  · intro self fictionGenres nonfictionGenres w
    refine ⟨?_, ?_, ?_, ?_, ?_, ?_, ?_, ?_, ?_, ?_, ?_, ?_, ?_, ?_, ?_, ?_⟩
    · intro h
      simp [update_from_openlibrary_work, update_merge, h]
    · intro h
      simp [update_from_openlibrary_work, update_merge, h]
    · intro h
      simp [update_from_openlibrary_work, update_merge, h]
    · intro h
      simp [update_from_openlibrary_work, update_merge, h]
    · intro h
      simp [update_from_openlibrary_work, update_merge, h]
    · intro h
      simp [update_from_openlibrary_work, update_merge, h]
    · intro h
      simp [update_from_openlibrary_work, update_merge, bne_iff_ne.mpr h]
    · intro h
      simp [update_from_openlibrary_work, update_merge, h]
    · intro h
      simp [update_from_openlibrary_work, update_merge, h]
    · intro h
      simp [update_from_openlibrary_work, update_merge, h]
    · intro h
      simp [update_from_openlibrary_work, update_merge, h]
    · intro h
      simp [update_from_openlibrary_work, update_merge, h]
    · have hne : ("https://covers.openlibrary.org/b/id/" ++
          coverIStr w.cover_i ++ "-L.jpg") ≠ "" := by
        intro hcontra
        have := congrArg String.data hcontra
        simp [String.data_append] at this
      simp [update_from_openlibrary_work, update_merge, bne_iff_ne.mpr hne]
    · simp [update_from_openlibrary_work, update_merge, strTruthy]
    · simp [update_from_openlibrary_work, update_merge]
    · simp [update_from_openlibrary_work, update_merge]

/-- Witness for C2 (amended): the fill-only direction of `enrichApply`
on a concrete book, and the enrichment-wins direction of the csv_cli
merge on a concrete record. -/
theorem claim_C2_amended_witness :
    (enrichApply
      { title := "T", author := "A", book_type := some "Fiction" }
      { subjects := some ["Nonfiction"] }).book_type = some "Fiction" :=
  (claim_C2_amended.1
    { title := "T", author := "A", book_type := some "Fiction" }
    { subjects := some ["Nonfiction"] }).1 (by decide)

/-! ## The CSV import pipeline (`BookImportService.import_from_csv`,
book_import_service.py lines 92-226) -/

/-- Outcome of processing one CSV row (the loop body, lines 113-216):
either a book is staged for insertion, or the row is reported as a
duplicate ("already exists"), or it fails with a validation/processing
message.  Duplicates and failures are reported identically in the
result; the distinction is kept here so duplicate reports can be talked
about. -/
inductive RowOutcome where
  | added (b : Book)
  | dup (msg : String)
  | failed (msg : String)
deriving DecidableEq

/-- The duplicate message of line 137. -/
def dupMsg (titleRaw authorRaw : String) (eb : Book) : String :=
  "Book \x27" ++ titleRaw ++ "\x27 by \x27" ++ authorRaw ++
    "\x27 already exists (matches \x27" ++ eb.title ++ "\x27 by \x27" ++ eb.author ++
    "\x27)"

/-- Grade parsing (lines 146-154): empty is fine, otherwise an integer
in [1, 12]. -/
def parseGrade (o : Option String) : Except String (Option Int) :=
  let raw := pyStrip (o.getD "")
  if raw == "" then .ok none
  else
    match pyInt raw with
    | none => .error ("Invalid grade \x27" ++ raw ++ "\x27")
    | some v =>
      if v < 1 ∨ v > 12 then
        .error ("Grade must be between 1 and 12 (got " ++ toString v ++ ")")
      else .ok (some v)

/-- Owned parsing (lines 156-159): blank defaults to "Not Owned";
anything outside {Physical, Kindle, Not Owned} is a `ValueError`. -/
def parseOwned (o : Option String) : Except String String :=
  let t := pyStrip (o.getD "")
  let v := if t == "" then "Not Owned" else t
  if v == "Physical" || v == "Kindle" || v == "Not Owned" then .ok v
  else
    .error ("Invalid owned value \x27" ++ v ++
      "\x27 (must be Physical, Kindle, or Not Owned)")

/-- The duplicate scan (lines 129-134): first catalog record whose
normalized title and author both match the (already normalized)
candidate pair. -/
def findDuplicate (books : List Book) (tn an : String) : Option Book :=
  books.find? (fun b =>
    normalize_text b.title == tn && normalize_text b.author == an)

/-- Book construction from the CSV cells (lines 143, 161-172). -/
def buildBook (row : Row) (grade_val : Option Int) (owned_val : String)
    (isbn : String) : Book :=
  { title := pyStrip (row.title.getD "")
    author := pyStrip (row.author.getD "")
    isbn := if isbn == "" then none else some isbn
    book_type :=
      let s := pyStrip (row.book_type.getD "")
      if s == "" then none else some s
    genre := pyStrip (row.genre.getD "")
    sub_genre :=
      let s := pyStrip (row.sub_genre.getD "")
      if s == "" then none else some s
    topic := pyStrip (row.topic.getD "")
    lexile_rating := pyStrip (row.lexile_rating.getD "")
    grade := grade_val
    owned := owned_val }

/-- The ISBN enrichment merge (lines 181-192), applied when
`get_book_by_isbn` returned a dict. -/
def applyIsbnData (book : Book) (d : IsbnData) : Book :=
  let book := if book.title == "" then { book with title := d.title }
    else book
  let book := if book.author == "" then
      { book with author := d.author.getD "" }
    else book
  let book := { book with
    openlibrary_id := some d.openlibrary_id
    description := some (d.description.getD "")
    cover_url := some (d.cover_url.getD "")
    publication_year := d.publication_year }
  if book.genre == "" && strTruthy d.genre then
    { book with genre := d.genre.getD "" }
  else book

/-- The enrichment stage of one row (lines 173-195): the ISBN path
(`get_book_by_isbn` never raises; `none` is silently ignored), or the
title/author search path through `enrich_book_from_openlibrary_run`. -/
def enrichStage (ol : Oracle) (isbn : String) (book : Book) :
    Except String Book :=
  if isbn != "" then
    match ol.byIsbn isbn with
    | some d => .ok (applyIsbnData book d)
    | none => .ok book
  else
    match enrich_book_from_openlibrary_run book
        (ol.search book.author book.title) with
    | .ok (b, _) => .ok b
    | .error m => .error m

/-- The part of the row body after the duplicate check (lines 143-208):
parse grade and owned, build the book, enrich, validate the title. -/
def importRowRest (ol : Oracle) (row : Row) : RowOutcome :=
  let isbn := pyStrip (row.isbn.getD "")
  match parseGrade row.grade with
  | .error m => .failed m
  | .ok grade_val =>
    match parseOwned row.owned with
    | .error m => .failed m
    | .ok owned_val =>
      match enrichStage ol isbn (buildBook row grade_val owned_val isbn) with
      | .error m => .failed m
      | .ok book2 =>
        if book2.title == "" then .failed "Title is required"
        else .added book2

/-- One row of `import_from_csv` (lines 113-216), against the books
visible to `Book.query.all()` at that point. -/
def importRow (books : List Book) (ol : Oracle) (row : Row) : RowOutcome :=
  if !(row.hasTitleKey && row.hasAuthorKey) then
    .failed "Missing required \x27title\x27 or \x27author\x27 field"
  else
    let title_raw := pyStrip (row.title.getD "")
    let author_raw := pyStrip (row.author.getD "")
    let title_normalized := normalize_text title_raw
    let author_normalized := normalize_text author_raw
    let existing :=
      if title_normalized != "" && author_normalized != "" then
        findDuplicate books title_normalized author_normalized
      else none
    match existing with
    | some eb => .dup (dupMsg title_raw author_raw eb)
    | none => importRowRest ol row

/-- Modelled from the spec (§4.6, §7 and claim C1): the same per-row
pipeline with the enrichment stage skipped entirely, so the row
"continues through validation and persistence with only its original
data".  Comparator for claim C1; everything except the enrichment stage
is identical to `importRow`. -/
def importRowNoEnrich (books : List Book) (row : Row) : RowOutcome :=
  if !(row.hasTitleKey && row.hasAuthorKey) then
    .failed "Missing required \x27title\x27 or \x27author\x27 field"
  else
    let title_raw := pyStrip (row.title.getD "")
    let author_raw := pyStrip (row.author.getD "")
    let title_normalized := normalize_text title_raw
    let author_normalized := normalize_text author_raw
    let existing :=
      if title_normalized != "" && author_normalized != "" then
        findDuplicate books title_normalized author_normalized
      else none
    match existing with
    | some eb => .dup (dupMsg title_raw author_raw eb)
    | none =>
      let isbn := pyStrip (row.isbn.getD "")
      match parseGrade row.grade with
      | .error m => .failed m
      | .ok grade_val =>
        match parseOwned row.owned with
        | .error m => .failed m
        | .ok owned_val =>
          let book2 := buildBook row grade_val owned_val isbn
          if book2.title == "" then .failed "Title is required"
          else .added book2

/-- The result dict of `import_from_csv`. -/
structure ImportResult where
  success_count : Nat
  error_count : Nat
  errors : List String
deriving DecidableEq

/-- The exact condition under which a row reaches the
`Book.query.all()` duplicate-check query (lines 115-129): both keys are
present (otherwise the `ValueError` of line 116 is raised first) and
both normalized sides are non-empty (the line 128 guard). -/
def rowQueries (row : Row) : Bool :=
  row.hasTitleKey && row.hasAuthorKey &&
    (normalize_text (pyStrip (row.title.getD "")) != "") &&
    (normalize_text (pyStrip (row.author.getD "")) != "")

/-- INSERT each staged book, in order, into the session's database
view, enforcing the `uq_author_title` uniqueness constraint of `Book`
(src/bookapp/models.py lines 77-79): the insert fails (`none`, an
`IntegrityError`) when the book's exact `(author, title)` pair is
already present.  This runs both when the session autoflushes its
staged inserts before a query and at the final commit. -/
def flushInsert : List Book → List Book → Option (List Book)
  | cat, [] => some cat
  | cat, p :: ps =>
    if cat.any (fun c => c.author == p.author && c.title == p.title) then
      none
    else flushInsert (cat ++ [p]) ps

/-- The SQLAlchemy session as the import sees it: `dbView` is what a
query returns (the committed catalog plus every flushed, still
uncommitted insert), `unflushed` holds the books staged by
`session.add` since the last flush, and `poisoned` records that a
flush raised — from then on every query and the final commit raise
`PendingRollbackError` until the rollback. -/
structure SessionState where
  dbView : List Book
  unflushed : List Book
  poisoned : Bool
deriving DecidableEq

/-- The row loop (lines 113-216) with the session's autoflush
semantics.  A row that reaches the duplicate-check query first flushes
the staged inserts: if the session is already poisoned the query
itself raises `PendingRollbackError`, caught by the per-row handler;
if the flush violates `uq_author_title` the `IntegrityError` is
likewise caught by the per-row handler — charged to the row that
happened to run the query, not to the row that staged the conflicting
book — and the session is poisoned.  On a successful flush the query
sees the catalog plus everything staged so far, which is what makes
within-batch duplicates detectable in non-debug mode.  A row that
skips the query (missing keys, or an empty normalized title/author)
does not touch the session until `session.add`, which never raises.
In debug mode nothing is staged, so a flush never has anything to
write. -/
def processRows (ol : Oracle) (debug : Bool) :
    List Row → Nat → SessionState → ImportResult →
      ImportResult × SessionState
  | [], _, st, res => (res, st)
  | row :: rest, row_num, st, res =>
    if rowQueries row then
      if st.poisoned then
        processRows ol debug rest (row_num + 1) st
          { res with
            error_count := res.error_count + 1
            errors := res.errors ++
              ["Row " ++ toString row_num ++ ": PendingRollbackError"] }
      else
        match flushInsert st.dbView st.unflushed with
        | none =>
          processRows ol debug rest (row_num + 1)
            { st with poisoned := true }
            { res with
              error_count := res.error_count + 1
              errors := res.errors ++
                ["Row " ++ toString row_num ++ ": IntegrityError"] }
        | some dbView2 =>
          match importRow dbView2 ol row with
          | .added b =>
            processRows ol debug rest (row_num + 1)
              { dbView := dbView2
                unflushed := if debug then [] else [b]
                poisoned := false }
              { res with success_count := res.success_count + 1 }
          | .dup m =>
            processRows ol debug rest (row_num + 1)
              { dbView := dbView2, unflushed := [], poisoned := false }
              { res with
                error_count := res.error_count + 1
                errors := res.errors ++
                  ["Row " ++ toString row_num ++ ": " ++ m] }
          | .failed m =>
            processRows ol debug rest (row_num + 1)
              { dbView := dbView2, unflushed := [], poisoned := false }
              { res with
                error_count := res.error_count + 1
                errors := res.errors ++
                  ["Row " ++ toString row_num ++ ": " ++ m] }
    else
      match importRow st.dbView ol row with
      | .added b =>
        processRows ol debug rest (row_num + 1)
          { st with unflushed := if debug then st.unflushed
              else st.unflushed ++ [b] }
          { res with success_count := res.success_count + 1 }
      | .dup m =>
        processRows ol debug rest (row_num + 1) st
          { res with
            error_count := res.error_count + 1
            errors := res.errors ++
              ["Row " ++ toString row_num ++ ": " ++ m] }
      | .failed m =>
        processRows ol debug rest (row_num + 1) st
          { res with
            error_count := res.error_count + 1
            errors := res.errors ++
              ["Row " ++ toString row_num ++ ": " ++ m] }

/-- `BookImportService.import_from_csv` (lines 92-226) over parsed rows:
returns the result dict and the catalog after the import.  In non-debug
mode the final `db.session.commit()` (line 219) first raises
`PendingRollbackError` if an earlier flush failed, and otherwise
flushes the remaining staged inserts under `uq_author_title`; either
exception is caught by the outer handler (lines 221-224), which rolls
back the entire session — discarding flushed-but-uncommitted inserts
too — and appends a single file-level error. -/
def import_from_csv (rows : List Row) (catalog : List Book) (ol : Oracle)
    (debug : Bool) : ImportResult × List Book :=
  let rp := processRows ol debug rows 2 ⟨catalog, [], false⟩ ⟨0, 0, []⟩
  if debug then (rp.1, catalog)
  else if rp.2.poisoned then
    ({ rp.1 with
        error_count := rp.1.error_count + 1
        errors := rp.1.errors ++
          ["File processing error: PendingRollbackError"] },
      catalog)
  else
    match flushInsert rp.2.dbView rp.2.unflushed with
    | some catalog2 => (rp.1, catalog2)
    | none =>
      ({ rp.1 with
          error_count := rp.1.error_count + 1
          errors := rp.1.errors ++
            ["File processing error: IntegrityError"] },
        catalog)

/-! ## Claim C1 -/

theorem enrichStage_fail (ol : Oracle) (h1 : ∀ i, ol.byIsbn i = none)
    (h2 : ∀ a t, ol.search a t = none) :
    ∀ (isbn : String) (b : Book), enrichStage ol isbn b = .ok b := by
  intro isbn b
  unfold enrichStage enrich_book_from_openlibrary_run
  split
  · rw [h1]
  · rw [h2]
    by_cases hf : enrichFullySet b <;> simp [hf]

/-- C1: when every bibliographic lookup fails (network error, parse
failure, or no match — all of which surface as `None`/an empty result
list from the client), the per-row pipeline behaves exactly like the
pipeline with no enrichment step at all: the failure is silent, never
recorded as an error for the row, and the row continues through
validation and persistence with only its original CSV data. -/
theorem claim_C1_enrichment_failure_silent (books : List Book)
    (ol : Oracle) (row : Row) (h1 : ∀ i, ol.byIsbn i = none)
    (h2 : ∀ a t, ol.search a t = none) :
    importRow books ol row = importRowNoEnrich books row := by
  unfold importRow importRowNoEnrich
  simp only [importRowRest, enrichStage_fail ol h1 h2]

/-- Witness for C1: a concrete row under the failing oracle. -/
theorem claim_C1_witness :
    importRow [] failOracle
        { title := some "Wonder", author := some "R.J. Palacio",
          isbn := some "9780375869020" } =
      importRowNoEnrich []
        { title := some "Wonder", author := some "R.J. Palacio",
          isbn := some "9780375869020" } :=
  claim_C1_enrichment_failure_silent [] failOracle
    { title := some "Wonder", author := some "R.J. Palacio",
      isbn := some "9780375869020" }
    (fun _ => rfl) (fun _ _ => rfl)

/-! ## Claim C10 -/

theorem importRowRest_ne_dup (ol : Oracle) (row : Row) (m : String) :
    importRowRest ol row ≠ .dup m := by
  unfold importRowRest
  repeat (first | simp | split)

/-- C10: if a row's stripped title or author normalizes to the empty
string, the import performs no duplicate detection for that row: its
outcome does not depend on the catalog at all, and it is never reported
as already existing. -/
theorem claim_C10_no_dup_check_on_empty_normalization (row : Row)
    (ol : Oracle)
    (h : normalize_text (pyStrip (row.title.getD "")) = "" ∨
      normalize_text (pyStrip (row.author.getD "")) = "") :
    (∀ books : List Book, importRow books ol row = importRow [] ol row)
    ∧ (∀ (books : List Book) (m : String),
        importRow books ol row ≠ .dup m) := by
  have hc : (normalize_text (pyStrip (row.title.getD "")) != "" &&
      normalize_text (pyStrip (row.author.getD "")) != "") = false := by
    rcases h with h | h <;> simp [h]
  constructor
  · intro books
    simp only [importRow, hc, Bool.false_eq_true, if_false]
  · intro books m
    simp only [importRow, hc, Bool.false_eq_true, if_false]
    split
    · intro hco
      exact RowOutcome.noConfusion hco
    · exact importRowRest_ne_dup ol row m

/-- Witness for C10: a punctuation-only title row is not flagged as a
duplicate even when the catalog holds the identical pair. -/
theorem claim_C10_witness :
    importRow [{ title := "!!!", author := "???" }] failOracle
        { title := some "!!!", author := some "???" } =
      importRow [] failOracle
        { title := some "!!!", author := some "???" } :=
  (claim_C10_no_dup_check_on_empty_normalization
    { title := some "!!!", author := some "???" } failOracle
    (Or.inl (by decide))).1 [{ title := "!!!", author := "???" }]

/-! ## Claim C4 -/

/-- C4 counterexample: a row with `owned = "Audible"` is recorded as a
validation error and nothing is persisted — `Audible` is not an accepted
value of the import, contradicting the claimed four-value set. -/
theorem claim_C4_counterexample :
    (import_from_csv
        [{ title := some "Valid Book", author := some "An Author",
           owned := some "Audible" }] [] failOracle false).1.success_count = 0
    ∧ (import_from_csv
        [{ title := some "Valid Book", author := some "An Author",
           owned := some "Audible" }] [] failOracle false).1.error_count = 1
    ∧ (import_from_csv
        [{ title := some "Valid Book", author := some "An Author",
           owned := some "Audible" }] [] failOracle false).1.errors =
      ["Row 2: Invalid owned value \x27Audible\x27 (must be Physical, Kindle, or Not Owned)"]
    ∧ (import_from_csv
        [{ title := some "Valid Book", author := some "An Author",
           owned := some "Audible" }] [] failOracle false).2 = [] := by
  refine ⟨?_, ?_, ?_, ?_⟩ <;> decide

/-- C4 (amended): the `owned` field accepts exactly the three values
`Physical`, `Kindle`, `Not Owned`; a blank value defaults to
`Not Owned`; any other value (including `Audible`) makes the row a
validation error. -/
theorem claim_C4_amended (o : Option String) :
    (pyStrip (o.getD "") = "" → parseOwned o = .ok "Not Owned")
    ∧ (∀ v, pyStrip (o.getD "") = v →
        (v = "Physical" ∨ v = "Kindle" ∨ v = "Not Owned") →
        parseOwned o = .ok v)
    ∧ (∀ v, pyStrip (o.getD "") = v → v ≠ "" →
        ¬(v = "Physical" ∨ v = "Kindle" ∨ v = "Not Owned") →
        parseOwned o = .error ("Invalid owned value \x27" ++ v ++
          "\x27 (must be Physical, Kindle, or Not Owned)")) := by
  refine ⟨?_, ?_, ?_⟩
  · intro h
    simp only [parseOwned]
    rw [h]
    rfl
  · intro v hv hmem
    simp only [parseOwned]
    rw [hv]
    rcases hmem with rfl | rfl | rfl <;> rfl
  · intro v hv hne hmem
    push_neg at hmem
    obtain ⟨h1, h2, h3⟩ := hmem
    simp only [parseOwned]
    rw [hv]
    have hlet : (if v == "" then "Not Owned" else v) = v := by
      rw [if_neg (by
        simp only [beq_iff_eq]
        exact hne)]
    rw [hlet, if_neg (by
      simp only [Bool.or_eq_true, beq_iff_eq]
      push_neg
      exact ⟨⟨h1, h2⟩, h3⟩)]

/-- Witness for C4 (amended) at concrete `owned` cells. -/
theorem claim_C4_amended_witness :
    parseOwned (some "   ") = .ok "Not Owned"
    ∧ parseOwned (some " Kindle ") = .ok "Kindle"
    ∧ parseOwned (some "Audible") = .error
        "Invalid owned value \x27Audible\x27 (must be Physical, Kindle, or Not Owned)" :=
  ⟨(claim_C4_amended (some "   ")).1 (by decide),
    (claim_C4_amended (some " Kindle ")).2.1 "Kindle" (by decide)
      (Or.inr (Or.inl rfl)),
    (claim_C4_amended (some "Audible")).2.2 "Audible" (by decide)
      (by decide) (by decide)⟩

/-! ## Claim C7 -/

theorem find?_eq_head_filter {α : Type} (p : α → Bool) :
    ∀ l : List α, l.find? p = (l.filter p).head? := by
  intro l
  induction l with
  | nil => rfl
  | cons a t ih =>
    by_cases h : p a
    · rw [List.find?_cons_of_pos _ h, List.filter_cons_of_pos h,
        List.head?_cons]
    · rw [List.find?_cons_of_neg _ h, List.filter_cons_of_neg h, ih]

/-- C7: for every candidate `(title, author)` pair and every catalog,
the duplicate scan returns the first catalog record whose normalized
title and author both equal the candidate's normalized title and
author, and returns absent exactly when no record matches; in
particular, a pair present in the catalog under any
casing/punctuation/whitespace variant is detected. -/
theorem claim_C7_findDuplicate (books : List Book) (t a : String) :
    (findDuplicate books (normalize_text t) (normalize_text a) =
      (books.filter (fun b =>
        normalize_text b.title == normalize_text t &&
          normalize_text b.author == normalize_text a)).head?)
    ∧ (findDuplicate books (normalize_text t) (normalize_text a) = none ↔
      ∀ b ∈ books, ¬(normalize_text b.title = normalize_text t ∧
        normalize_text b.author = normalize_text a))
    ∧ (∀ b ∈ books, normalize_text b.title = normalize_text t →
        normalize_text b.author = normalize_text a →
        (findDuplicate books (normalize_text t)
          (normalize_text a)).isSome = true) := by
  refine ⟨?_, ?_, ?_⟩
  · exact find?_eq_head_filter _ books
  · unfold findDuplicate
    rw [List.find?_eq_none]
    constructor
    · intro hall b hb hcontra
      exact hall b hb (by simp [hcontra.1, hcontra.2])
    · intro hall b hb hcontra
      simp only [Bool.and_eq_true, beq_iff_eq] at hcontra
      exact hall b hb ⟨hcontra.1, hcontra.2⟩
  · intro b hb h1 h2
    unfold findDuplicate
    rw [List.find?_isSome]
    exact ⟨b, hb, by simp [h1, h2]⟩

/-- Witness for C7: a casing/punctuation/whitespace variant already in
the catalog is detected. -/
theorem claim_C7_findDuplicate_witness :
    (findDuplicate [{ title := "The  HUNGER games!", author := "SUZANNE   Collins" }]
      (normalize_text "The Hunger Games")
      (normalize_text "suzanne collins")).isSome = true :=
  (claim_C7_findDuplicate
    [{ title := "The  HUNGER games!", author := "SUZANNE   Collins" }]
    "The Hunger Games" "suzanne collins").2.2
    { title := "The  HUNGER games!", author := "SUZANNE   Collins" }
    (by decide) (by decide) (by decide)

/-! ## Claim C3 -/

/-- The spec's first example row. -/
def hgRow1 : Row :=
  { title := some "The Hunger Games", author := some "Suzanne Collins" }

/-- The spec's second example row: same pair up to
casing/whitespace. -/
def hgRow2 : Row :=
  { title := some "the hunger games ", author := some "SUZANNE COLLINS" }

/-- An oracle for an online OpenLibrary that finds a work for every
title/author search (the normal deployment environment). -/
def hitOracle : Oracle :=
  ⟨fun _ => none,
    fun _ _ => some { key := "/works/OL12W", title := "The Hunger Games" }⟩

/-- C8: evaluation at the failing input.  When the bibliographic search
succeeds (any online environment), `enrich_book_from_openlibrary` calls
`.get` on the returned `OpenLibraryWork` and every such row dies with
`AttributeError`: importing the spec's two rows yields 0 successes and
2 errors instead of the claimed 1 success + 1 duplicate error.  When
every search fails soft, the claimed behavior does hold: 1 success and
exactly the row-3 duplicate error. -/
theorem claim_C8_duplicate_pair_batch :
    ((import_from_csv [hgRow1, hgRow2] [] hitOracle false).1.success_count = 0
      ∧ (import_from_csv [hgRow1, hgRow2] [] hitOracle false).1.error_count = 2
      ∧ (import_from_csv [hgRow1, hgRow2] [] hitOracle false).2 = [])
    ∧ ((import_from_csv [hgRow1, hgRow2] [] failOracle false).1.success_count = 1
      ∧ (import_from_csv [hgRow1, hgRow2] [] failOracle false).1.error_count = 1
      ∧ (import_from_csv [hgRow1, hgRow2] [] failOracle false).1.errors =
        ["Row 3: Book \x27the hunger games\x27 by \x27SUZANNE COLLINS\x27 already exists (matches \x27The Hunger Games\x27 by \x27Suzanne Collins\x27)"]) := by
  refine ⟨⟨?_, ?_, ?_⟩, ⟨?_, ?_, ?_⟩⟩ <;> decide

end BookApp
